import Mathlib

/-!
Shallow embedding of `src/gui/elements/image_container.py` (the
`ImageContainer` class of the napari image-viewer prototype).

The container wraps one n-dimensional image array, a metadata mapping and
a handle to a vispy visual.  The array's numeric contents are external
(numpy); the embedding records the array's shape and, for the visual's
data buffer, which selector tuple was applied — exactly the information
the container's own code manipulates.  numpy's indexing bounds are
embedded too: indexing with a numeric entry outside `[-axis_len,
axis_len)` raises IndexError, so nothing is pushed there.  vispy
objects (`Image`, `Alpha`, `STTransform`) are embedded by the fields
the container reads or writes.

Python semantics captured explicitly:
* attribute mutation before an exception persists, so every mutating
  operation returns the state reached together with `Option PyErr`;
* `int % n` is mathematical modulus (`Int.emod` for positive `n`);
* `l[:n]` for negative `n` keeps `len l + n` elements (`pySliceTo`);
* the `try/except TypeError: pass` around index clamping swallows the
  comparison failure for non-numeric entries (`clampEntry`).

Helpers that live in `..util` (not part of the reviewed source) are
modelled from the spec and marked as such.
-/

namespace ImageContainerModel

/-- Python exception kinds that the embedded code can raise. -/
inductive PyErr where
  | attributeError
  | valueError
  | typeError
  | indexError
  | zeroDivisionError
  deriving DecidableEq, Repr

/-- One per-dimension entry of a slice-index sequence: either a numeric
(integer) index, or a non-numeric selector (a range/slice object), for
which comparison against an integer bound raises TypeError. -/
inductive IndexEntry where
  | num (i : Int)
  | nonNum
  deriving DecidableEq, Repr

/-- The argument of `set_view_slice`: either the `Ellipsis` sentinel
(take the whole array) or a sequence of per-dimension entries. -/
inductive Indices where
  | ellipsis
  | list (l : List IndexEntry)
  deriving DecidableEq, Repr

/-- An n-dimensional array, embedded by its shape; the numeric contents
live in numpy and are never inspected by the container. -/
structure NDImage where
  shape : List Nat
  deriving DecidableEq, Repr

/-- Metadata mapping: an association list with Python-dict lookup and
update semantics. -/
def Meta : Type := List (String × String)

instance : DecidableEq Meta :=
  inferInstanceAs (DecidableEq (List (String × String)))

instance : Repr Meta :=
  inferInstanceAs (Repr (List (String × String)))

/-- `meta.get(k)` / `meta[k]` lookup. -/
def metaGet (m : Meta) (k : String) : Option String :=
  (m.find? (fun p => p.1 = k)).map (fun p => p.2)

/-- `meta[k] = v` update: the key now maps to `v`. -/
def metaSet (m : Meta) (k v : String) : Meta :=
  (k, v) :: m.filter (fun p => p.1 ≠ k)

/-- Modelled from the spec: `is_multichannel` from `..util` is not part
of the reviewed source.  The spec describes metadata carrying "an
`itype` tag marking multichannel data" and `set_image` writes
`meta['itype'] = 'multi'`; the predicate holds exactly when that tag is
present. -/
def is_multichannel (m : Meta) : Bool :=
  metaGet m "itype" = some "multi"

/-- Modelled from the spec: `interpolation_name_to_index` from `..util`
translates a name into its index in the known-names table, "signaling
an error for unknown names" (here `none`). -/
def name_to_index (names : List String) (n : String) : Option Nat :=
  if n ∈ names then some (names.indexOf n) else none

/-- Modelled from the spec: `interpolation_index_to_name` from `..util`
resolves an index (already reduced modulo the table length) back to the
name string. -/
def index_to_name (names : List String) (i : Int) : String :=
  names.getD i.toNat ""

/-- vispy `STTransform`: an affine scale/translate transform with
4-component scale and translate vectors. -/
structure STTransform where
  sx : Rat
  sy : Rat
  sz : Rat
  sw : Rat
  tx : Rat
  ty : Rat
  tz : Rat
  tw : Rat
  deriving DecidableEq, Repr

/-- Default `STTransform()`: identity scale, zero translation. -/
def STTransform.default : STTransform :=
  { sx := 1, sy := 1, sz := 1, sw := 1, tx := 0, ty := 0, tz := 0, tw := 0 }

/-- The visual's transform slot: either an `STTransform` or some other
`BaseTransform` subclass. -/
inductive Transform where
  | st (t : STTransform)
  | other
  deriving DecidableEq, Repr

/-- The wrapped vispy image visual, embedded by the fields the container
touches.  `data` is the buffer filled by `set_data`: the source array
together with the selector tuple applied to it (`none` selector = the
whole array).  `updates` counts `update()` requests. -/
structure Visual where
  data : Option (NDImage × Option (List IndexEntry))
  interpolation : String
  clim : String
  cmap : String
  method : String
  transform : Transform
  needColortransformUpdate : Bool
  updates : Nat
  deriving DecidableEq, Repr

/-- The `ImageContainer` state.  `alpha` is the attached `Alpha`
filter's alpha.  `indices` is `none` while the Python attribute
`self.indices` has never been assigned (reading it then raises
AttributeError). -/
structure ImageContainer where
  image : NDImage
  meta : Meta
  visual : Visual
  alpha : Rat
  interpolationIndex : Int
  indices : Option Indices
  deriving DecidableEq, Repr

/-- `update()`: delegates to the visual's own update call; no local
state change beyond the request itself. -/
def update (c : ImageContainer) : ImageContainer :=
  { c with visual := { c.visual with updates := c.visual.updates + 1 } }

/-- `data_ndim` property: rank of the stored array. -/
def data_ndim (c : ImageContainer) : Nat :=
  c.image.shape.length

/-- `image_ndim` property: `self.data_ndim - is_multichannel(self.meta)`
with Python bool-as-int arithmetic, hence an `Int`. -/
def image_ndim (c : ImageContainer) : Int :=
  (data_ndim c : Int) - (if is_multichannel c.meta then 1 else 0)

/-- Python list slicing `l[:n]`: for `n ≥ 0` the first `n` elements,
for `n < 0` all but the last `-n`. -/
def pySliceTo (n : Int) (l : List α) : List α :=
  if 0 ≤ n then l.take n.toNat else l.take (l.length - (-n).toNat)

/-- One iteration of the clamping loop in `set_view_slice` for the
entry at a dimension of length `dimLen`:
`if indices[dim] > dimLen - 1: indices[dim] = dimLen - 1`, with the
TypeError from comparing a non-numeric entry caught and ignored
(`except TypeError: pass`). -/
def clampEntry (dimLen : Nat) : IndexEntry → IndexEntry
  | .num i => if i > (dimLen : Int) - 1 then .num ((dimLen : Int) - 1) else .num i
  | .nonNum => .nonNum

/-- numpy's per-axis validity of one applied selector entry: a numeric
index into an axis of length `d` must lie in `[-d, d)` or the indexing
expression raises IndexError; a non-numeric (slice/range) selector is
clipped by numpy and never raises. -/
def entryValid (d : Nat) : IndexEntry → Bool
  | .num i => decide (-(d : Int) ≤ i ∧ i < (d : Int))
  | .nonNum => true

/-- numpy's bounds check for `self.image[tuple(indices)]`: every
applied entry must be valid for its axis. -/
def selectorInBounds (shape : List Nat) (applied : List IndexEntry) : Bool :=
  (shape.zip applied).all (fun p => entryValid p.1 p.2)

/-- `set_view_slice(indices)`: stores the raw indices, then (unless the
Ellipsis sentinel) truncates to `image_ndim` entries, clamps each
numeric entry to its axis bound, indexes the array and pushes the slice
to the visual's data buffer, then requests an update.  Two failure
paths, both numpy IndexErrors raised before anything is pushed: when
the truncated sequence is longer than the array rank (only possible for
a rank-0 multichannel image), the clamping loop's
`self.image.shape[dim]` lookup raises; and when an applied numeric
entry is still out of bounds after clamping (below `-axis_len`, or any
numeric entry on a length-0 axis), `self.image[tuple(indices)]`
raises. -/
def set_view_slice (c : ImageContainer) (indices : Indices) :
    ImageContainer × Option PyErr :=
  let c := { c with indices := some indices }
  match indices with
  | .ellipsis =>
      (update { c with visual := { c.visual with data := some (c.image, none) } },
       none)
  | .list l =>
      let truncated := pySliceTo (image_ndim c) l
      if truncated.length ≤ c.image.shape.length then
        let applied := List.zipWith clampEntry c.image.shape truncated
        if selectorInBounds c.image.shape applied then
          (update { c with visual :=
              { c.visual with data := some (c.image, some applied) } },
           none)
        else
          (c, some .indexError)
      else
        (c, some .indexError)

/-- `refresh()`: marks the visual's colortransform stale, then replays
the stored slice; on a container where `self.indices` was never
assigned, reading it raises AttributeError. -/
def refresh (c : ImageContainer) : ImageContainer × Option PyErr :=
  let c := { c with visual := { c.visual with needColortransformUpdate := true } }
  match c.indices with
  | none => (c, some .attributeError)
  | some idx => set_view_slice c idx

/-- `set_image(image, meta=None, multichannel=None)`: replaces the
array; replaces metadata when given; resolves multichannel-ness from
the explicit flag or — modelled from the spec, `guess_multichannel`
from `..util` is not part of the reviewed source — a heuristic over the
shape, here passed in as `guess`; tags metadata when multichannel; then
refreshes. -/
def set_image (guess : List Nat → Bool) (c : ImageContainer) (image : NDImage)
    (meta : Option Meta) (multichannel : Option Bool) :
    ImageContainer × Option PyErr :=
  let c := { c with image := image }
  let c := match meta with
           | some m => { c with meta := m }
           | none => c
  let mc := match multichannel with
            | some b => b
            | none => guess image.shape
  let c := if mc then { c with meta := metaSet c.meta "itype" "multi" } else c
  refresh c

/-- `image` property setter: store then refresh. -/
def image_set (c : ImageContainer) (image : NDImage) :
    ImageContainer × Option PyErr :=
  refresh { c with image := image }

/-- `meta` property setter: store then refresh. -/
def meta_set (c : ImageContainer) (meta : Meta) :
    ImageContainer × Option PyErr :=
  refresh { c with meta := meta }

/-- `interpolation_index` property getter. -/
def interpolation_index_get (c : ImageContainer) : Int :=
  c.interpolationIndex

/-- `interpolation_index` setter: reduce modulo the number of known
interpolation names (Python `%`, mathematical modulus; `% 0` on an
empty table would raise ZeroDivisionError), store, and push the
resolved name to the visual. -/
def interpolation_index_set (names : List String) (c : ImageContainer)
    (i : Int) : ImageContainer × Option PyErr :=
  if names.length = 0 then (c, some .zeroDivisionError)
  else
    let ix : Int := i % (names.length : Int)
    ({ c with interpolationIndex := ix,
              visual := { c.visual with interpolation := index_to_name names ix } },
     none)

/-- `interpolation` setter: translate the name to its index (error for
unknown names) and go through the index setter. -/
def interpolation_set (names : List String) (c : ImageContainer)
    (interpolation : String) : ImageContainer × Option PyErr :=
  match name_to_index names interpolation with
  | none => (c, some .valueError)
  | some ix => interpolation_index_set names c (ix : Int)

/-- `transparency` getter: the alpha filter's alpha. -/
def transparency_get (c : ImageContainer) : Rat :=
  c.alpha

/-- `transparency` setter: reject values outside [0, 1] with ValueError,
otherwise store into the alpha filter and request an update. -/
def transparency_set (c : ImageContainer) (t : Rat) :
    ImageContainer × Option PyErr :=
  if ¬ (0 ≤ t ∧ t ≤ 1) then (c, some .valueError)
  else (update { c with alpha := t }, none)

/-- `clim` getter: passthrough to the visual. -/
def clim_get (c : ImageContainer) : String :=
  c.visual.clim

/-- `clim` setter as written in the source: `def clim(self):` — the
value parameter is missing, so a property assignment (which passes the
value) raises TypeError from the arity mismatch before the body (which
itself references an unbound name `clim`) could run; the visual is
untouched. -/
def clim_set (c : ImageContainer) (_v : String) :
    ImageContainer × Option PyErr :=
  (c, some .typeError)

/-- `cmap` getter: passthrough to the visual. -/
def cmap_get (c : ImageContainer) : String :=
  c.visual.cmap

/-- `cmap` setter: passthrough to the visual. -/
def cmap_set (c : ImageContainer) (v : String) : ImageContainer :=
  { c with visual := { c.visual with cmap := v } }

/-- `method` getter: passthrough to the visual. -/
def method_get (c : ImageContainer) : String :=
  c.visual.method

/-- `method` setter as written in the source: `def method(self):` — the
same missing-parameter slip as `clim`; assignment raises TypeError and
the visual is untouched. -/
def method_set (c : ImageContainer) (_v : String) :
    ImageContainer × Option PyErr :=
  (c, some .typeError)

/-- `transform` getter: passthrough to the visual. -/
def transform_get (c : ImageContainer) : Transform :=
  c.visual.transform

/-- `transform` setter: substitute a default `STTransform()` when given
`None`, then forward to the visual. -/
def transform_set (c : ImageContainer) (t : Option Transform) :
    ImageContainer :=
  let t := match t with
           | none => Transform.st STTransform.default
           | some t => t
  { c with visual := { c.visual with transform := t } }

/-- `_error_if_not_STTransform()`: TypeError when the active transform
is not an `STTransform`. -/
def error_if_not_STTransform (c : ImageContainer) : Option PyErr :=
  match transform_get c with
  | .st _ => none
  | .other => some .typeError

/-- `scale` getter: guarded by the `STTransform` check, then the
transform's scale vector. -/
def scale_get (c : ImageContainer) : Except PyErr (Rat × Rat × Rat × Rat) :=
  match transform_get c with
  | .st t => .ok (t.sx, t.sy, t.sz, t.sw)
  | .other => .error .typeError

/-- `scale` setter: guarded by the `STTransform` check, then writes the
transform's scale vector. -/
def scale_set (c : ImageContainer) (v : Rat × Rat × Rat × Rat) :
    ImageContainer × Option PyErr :=
  match c.visual.transform with
  | .st t =>
      let t := { t with sx := v.1, sy := v.2.1, sz := v.2.2.1, sw := v.2.2.2 }
      ({ c with visual := { c.visual with transform := Transform.st t } }, none)
  | .other => (c, some .typeError)

/-- `translate` getter: guarded by the `STTransform` check, then the
transform's translate vector. -/
def translate_get (c : ImageContainer) : Except PyErr (Rat × Rat × Rat × Rat) :=
  match transform_get c with
  | .st t => .ok (t.tx, t.ty, t.tz, t.tw)
  | .other => .error .typeError

/-- `translate` setter: guarded by the `STTransform` check, then writes
the transform's translate vector. -/
def translate_set (c : ImageContainer) (v : Rat × Rat × Rat × Rat) :
    ImageContainer × Option PyErr :=
  match c.visual.transform with
  | .st t =>
      let t := { t with tx := v.1, ty := v.2.1, tz := v.2.2.1, tw := v.2.2.2 }
      ({ c with visual := { c.visual with transform := Transform.st t } }, none)
  | .other => (c, some .typeError)

/-- `z_index` getter: `-self.translate[2]` (the `translate` property
performs the `STTransform` check). -/
def z_index_get (c : ImageContainer) : Except PyErr Rat :=
  (translate_get c).map (fun v => -v.2.2.1)

/-- `z_index` setter: after the `STTransform` check, writes `-index`
directly into the transform's third translation component, then asks
the transform to re-derive its shader state and update (external
effects on the transform object). -/
def z_index_set (c : ImageContainer) (index : Rat) :
    ImageContainer × Option PyErr :=
  match c.visual.transform with
  | .st t =>
      ({ c with visual := { c.visual with transform := Transform.st { t with tz := -index } } },
       none)
  | .other => (c, some .typeError)

/-- `__init__(image, meta, viewer)`: store the array and metadata,
create the visual with `method='auto'` (remaining visual fields are the
rendering library's own defaults, opaque to this layer), attach an
`Alpha(1.0)` filter, zero the interpolation index, equip `'nearest'`
interpolation (fails if the name table lacks it), and install a default
`STTransform`.  `self.indices` is never assigned. -/
def initState (image : NDImage) (meta : Meta) : ImageContainer :=
  { image := image
    meta := meta
    visual :=
      { data := none
        interpolation := ""
        clim := "auto"
        cmap := ""
        method := "auto"
        transform := .other
        needColortransformUpdate := false
        updates := 0 }
    alpha := 1
    interpolationIndex := 0
    indices := none }

def init (names : List String) (image : NDImage) (meta : Meta) :
    Option ImageContainer :=
  match interpolation_set names (initState image meta) "nearest" with
  | (_, some _) => none
  | (c, none) => some (transform_set c none)

/-- A concrete container over a (10, 20) array with empty metadata and
the default `STTransform`, used to instantiate the theorems below. -/
def sampleC : ImageContainer :=
  { image := ⟨[10, 20]⟩
    meta := []
    visual :=
      { data := none
        interpolation := "nearest"
        clim := "auto"
        cmap := ""
        method := "auto"
        transform := .st STTransform.default
        needColortransformUpdate := false
        updates := 0 }
    alpha := 1
    interpolationIndex := 0
    indices := none }

/-- `sampleC` with metadata tagged multichannel. -/
def sampleMC : ImageContainer :=
  { sampleC with meta := [("itype", "multi")] }

/-- `sampleC` with a non-`STTransform` transform equipped. -/
def sampleOther : ImageContainer :=
  { sampleC with visual := { sampleC.visual with transform := .other } }

/-- The container produced by `init ["nearest"] ⟨[2, 2]⟩ []`. -/
def freshC : ImageContainer :=
  { image := ⟨[2, 2]⟩
    meta := []
    visual :=
      { data := none
        interpolation := "nearest"
        clim := "auto"
        cmap := ""
        method := "auto"
        transform := .st STTransform.default
        needColortransformUpdate := false
        updates := 0 }
    alpha := 1
    interpolationIndex := 0
    indices := none }

/-! ## Helper lemmas -/

theorem pySliceTo_map (f : α → β) (n : Int) (l : List α) :
    pySliceTo n (l.map f) = (pySliceTo n l).map f := by
  unfold pySliceTo
  split <;> simp [List.map_take]

/-- Specification-side description of one clamping step: the applied
numeric index for axis length `d` is the minimum of the requested index
and `d - 1`. -/
def clampSpec (d : Nat) (i : Int) : IndexEntry :=
  .num (min i ((d : Int) - 1))

theorem clampEntry_num (d : Nat) (i : Int) :
    clampEntry d (.num i) = clampSpec d i := by
  by_cases h : i > (d : Int) - 1
  · simp [clampEntry, clampSpec, h, min_eq_right h.le]
  · simp [clampEntry, clampSpec, h, min_eq_left (le_of_not_lt h)]

theorem zipWith_clampEntry_map (s : List Nat) (l : List Int) :
    List.zipWith clampEntry s (l.map IndexEntry.num) =
      List.zipWith clampSpec s l := by
  induction s generalizing l with
  | nil => simp
  | cons d s ih =>
      cases l with
      | nil => simp
      | cons i l => simp [clampEntry_num, ih]

theorem pySliceTo_length_le (c : ImageContainer) (l : List α)
    (h : 0 ≤ image_ndim c) :
    (pySliceTo (image_ndim c) l).length ≤ c.image.shape.length := by
  have hnd : (image_ndim c).toNat ≤ c.image.shape.length := by
    unfold image_ndim data_ndim at *
    split at h <;> omega
  unfold pySliceTo
  rw [if_pos h]
  exact le_trans (List.length_take_le _ _) hnd

theorem zipWith_getElem? (f : α → β → γ) (as : List α) (bs : List β)
    (j : Nat) (a : α) (b : β) (ha : as[j]? = some a) (hb : bs[j]? = some b) :
    (List.zipWith f as bs)[j]? = some (f a b) := by
  induction as generalizing bs j with
  | nil => simp at ha
  | cons x as ih =>
      cases bs with
      | nil => simp at hb
      | cons y bs =>
          cases j with
          | zero =>
              simp only [List.getElem?_cons_zero, Option.some.injEq] at ha hb
              simp [ha, hb]
          | succ j =>
              simp only [List.getElem?_cons_succ] at ha hb
              simpa using ih bs j ha hb

theorem set_view_slice_list_eq (c : ImageContainer) (l : List IndexEntry)
    (hlen : (pySliceTo (image_ndim c) l).length ≤ c.image.shape.length)
    (hvalid : selectorInBounds c.image.shape
      (List.zipWith clampEntry c.image.shape (pySliceTo (image_ndim c) l)) = true) :
    set_view_slice c (.list l) =
      (update { c with
          indices := some (Indices.list l),
          visual := { c.visual with data := some (c.image, some (List.zipWith clampEntry c.image.shape (pySliceTo (image_ndim c) l))) } },
       none) := by
  have hnd : image_ndim { c with indices := some (Indices.list l) } =
      image_ndim c := rfl
  simp only [set_view_slice, hnd]
  rw [if_pos hlen, if_pos hvalid]

/-! ## Claims -/

/-- C1: for every image array and integer-valued slice index sequence
(in the meaningful regime `0 ≤ image_ndim`, and with the clamped
selector inside numpy's remaining lower bounds so that the indexing
step itself does not raise), `set_view_slice` raises nothing, truncates
the sequence to `image_ndim` entries, clamps each numeric entry
exceeding its axis bound to `dimension_length - 1` (i.e. applies
`min i (dimension_length - 1)` per axis), and pushes the resulting
slice of the stored array to the visual's data buffer. -/
theorem C1_set_view_slice_clamps (c : ImageContainer) (l : List Int)
    (h : 0 ≤ image_ndim c)
    (hb : selectorInBounds c.image.shape
      (List.zipWith clampSpec c.image.shape (pySliceTo (image_ndim c) l)) = true) :
    (set_view_slice c (.list (l.map .num))).2 = none ∧
    (set_view_slice c (.list (l.map .num))).1.visual.data =
      some (c.image,
        some (List.zipWith clampSpec c.image.shape
          (pySliceTo (image_ndim c) l))) := by
  have hlen : (pySliceTo (image_ndim c) (l.map IndexEntry.num)).length ≤
      c.image.shape.length := pySliceTo_length_le c _ h
  rw [← zipWith_clampEntry_map, ← pySliceTo_map] at hb
  rw [set_view_slice_list_eq c _ hlen hb]
  refine ⟨rfl, ?_⟩
  simp only [update]
  rw [pySliceTo_map, zipWith_clampEntry_map]

/-- C1 witness: shape (10, 20), slice index [15, 5]; the applied index
is [9, 5] and lands in the visual's data buffer. -/
theorem C1_witness :
    0 ≤ image_ndim sampleC ∧
    (set_view_slice sampleC (.list ([15, 5].map .num))).2 = none ∧
    (set_view_slice sampleC (.list ([15, 5].map .num))).1.visual.data =
      some (⟨[10, 20]⟩, some [.num 9, .num 5]) := by
  have h := C1_set_view_slice_clamps sampleC [15, 5] (by decide) (by decide)
  exact ⟨by decide, h.1, h.2.trans (by decide)⟩

/-- C10: for every slice index sequence containing non-numeric entries
(with the clamped selector inside numpy's remaining lower bounds so
that the later indexing step does not raise), `set_view_slice` raises
nothing on the clamping step; the applied selector is produced by the
clamping loop, under which a non-numeric entry passes through unclamped
(its TypeError swallowed) while a numeric entry at an axis of length
`d` is still clamped to `min i (d - 1)`. -/
theorem C10_nonnumeric_pass_through (c : ImageContainer) (l : List IndexEntry)
    (h : 0 ≤ image_ndim c)
    (hb : selectorInBounds c.image.shape
      (List.zipWith clampEntry c.image.shape (pySliceTo (image_ndim c) l)) = true) :
    (set_view_slice c (.list l)).2 = none ∧
    (set_view_slice c (.list l)).1.visual.data =
      some (c.image, some (List.zipWith clampEntry c.image.shape
        (pySliceTo (image_ndim c) l))) ∧
    (∀ (j : Nat), (pySliceTo (image_ndim c) l)[j]? = some IndexEntry.nonNum →
      (List.zipWith clampEntry c.image.shape (pySliceTo (image_ndim c) l))[j]? =
        some IndexEntry.nonNum) ∧
    (∀ (j : Nat) (i : Int) (d : Nat),
      (pySliceTo (image_ndim c) l)[j]? = some (IndexEntry.num i) →
      c.image.shape[j]? = some d →
      (List.zipWith clampEntry c.image.shape (pySliceTo (image_ndim c) l))[j]? =
        some (clampSpec d i)) := by
  have hlen : (pySliceTo (image_ndim c) l).length ≤ c.image.shape.length :=
    pySliceTo_length_le c _ h
  refine ⟨?_, ?_, ?_, ?_⟩
  · rw [set_view_slice_list_eq c _ hlen hb]
  · rw [set_view_slice_list_eq c _ hlen hb]
    simp [update]
  · intro j hj
    have hjlen : j < (pySliceTo (image_ndim c) l).length :=
      (List.getElem?_eq_some.mp hj).1
    have hjs : j < c.image.shape.length := lt_of_lt_of_le hjlen hlen
    have hd : c.image.shape[j]? = some c.image.shape[j] :=
      List.getElem?_eq_getElem hjs
    have hz := zipWith_getElem? clampEntry c.image.shape
      (pySliceTo (image_ndim c) l) j _ _ hd hj
    simpa [clampEntry] using hz
  · intro j i d hj hd
    have hz := zipWith_getElem? clampEntry c.image.shape
      (pySliceTo (image_ndim c) l) j _ _ hd hj
    simpa [clampEntry_num] using hz

/-- C10 witness: shape (10, 20), index sequence [range, 25]; the
non-numeric first entry passes through unclamped and the numeric 25 is
clamped to 19, with no error raised. -/
theorem C10_witness :
    0 ≤ image_ndim sampleC ∧
    (set_view_slice sampleC (.list [.nonNum, .num 25])).2 = none ∧
    (set_view_slice sampleC (.list [.nonNum, .num 25])).1.visual.data =
      some (⟨[10, 20]⟩, some [.nonNum, .num 19]) := by
  have h := C10_nonnumeric_pass_through sampleC [.nonNum, .num 25]
    (by decide) (by decide)
  exact ⟨by decide, h.1, h.2.1.trans (by decide)⟩

/-- C2: setting transparency to a value in [0, 1] succeeds and reading
it back (the attached alpha filter's alpha) returns the same value;
setting a value outside [0, 1] raises ValueError and leaves the whole
container state, in particular the stored alpha, unchanged. -/
theorem C2_transparency_roundtrip (c : ImageContainer) (t : Rat) :
    (0 ≤ t → t ≤ 1 →
      (transparency_set c t).2 = none ∧
      transparency_get (transparency_set c t).1 = t ∧
      (transparency_set c t).1.alpha = t) ∧
    (¬ (0 ≤ t ∧ t ≤ 1) →
      (transparency_set c t).2 = some .valueError ∧
      (transparency_set c t).1 = c) := by
  constructor
  · intro h0 h1
    simp [transparency_set, transparency_get, update, h0, h1]
  · intro hout
    simp [transparency_set, hout]

/-- C2 witness: transparency 1/2 round-trips on the sample container;
transparency 2 raises ValueError and leaves the state unchanged. -/
theorem C2_witness :
    (transparency_set sampleC (1/2)).2 = none ∧
    transparency_get (transparency_set sampleC (1/2)).1 = 1/2 ∧
    (transparency_set sampleC 2).2 = some .valueError ∧
    (transparency_set sampleC 2).1 = sampleC := by
  have hin := (C2_transparency_roundtrip sampleC (1/2)).1 (by norm_num) (by norm_num)
  have hout := (C2_transparency_roundtrip sampleC 2).2 (by norm_num)
  exact ⟨hin.1, hin.2.1, hout.1, hout.2⟩

/-- C3: contrary to the claim, only the getters of clim and method are
passthroughs; the setters as written in the source lack the value
parameter, so every assignment raises TypeError and leaves the
container (hence the visual's clim and method fields) untouched. -/
theorem C3_clim_method_setters_raise (c : ImageContainer) (v : String) :
    clim_set c v = (c, some .typeError) ∧
    method_set c v = (c, some .typeError) ∧
    clim_get c = c.visual.clim ∧
    method_get c = c.visual.method :=
  ⟨rfl, rfl, rfl, rfl⟩

/-- C5: `image_ndim` equals `data_ndim - 1` when the metadata marks the
image multichannel and `data_ndim` otherwise. -/
theorem C5_image_ndim (c : ImageContainer) :
    (is_multichannel c.meta = true → image_ndim c = (data_ndim c : Int) - 1) ∧
    (is_multichannel c.meta = false → image_ndim c = (data_ndim c : Int)) := by
  constructor <;> intro h <;> simp [image_ndim, h]

/-- C5 witness: the multichannel-tagged sample has
`image_ndim = data_ndim - 1`; the untagged sample has
`image_ndim = data_ndim`. -/
theorem C5_witness :
    is_multichannel sampleMC.meta = true ∧
    image_ndim sampleMC = (data_ndim sampleMC : Int) - 1 ∧
    is_multichannel sampleC.meta = false ∧
    image_ndim sampleC = (data_ndim sampleC : Int) :=
  ⟨by decide, (C5_image_ndim sampleMC).1 (by decide),
   by decide, (C5_image_ndim sampleC).2 (by decide)⟩

theorem interpolation_index_set_indices (names : List String)
    (c : ImageContainer) (i : Int) :
    (interpolation_index_set names c i).1.indices = c.indices := by
  unfold interpolation_index_set
  split <;> rfl

theorem interpolation_set_indices (names : List String)
    (c : ImageContainer) (s : String) :
    (interpolation_set names c s).1.indices = c.indices := by
  unfold interpolation_set
  split
  · rfl
  · exact interpolation_index_set_indices names c _

theorem init_indices_none (names : List String) (img : NDImage) (m : Meta)
    (c : ImageContainer) (hc : init names img m = some c) :
    c.indices = none := by
  unfold init at hc
  split at hc
  · exact absurd hc (by simp)
  · next c1 heq =>
      have h1 : c1.indices = none := by
        have hp := interpolation_set_indices names (initState img m) "nearest"
        rw [heq] at hp
        exact hp
      have hce : transform_set c1 none = c := Option.some.inj hc
      rw [← hce]
      exact h1

theorem refresh_indices_none (c : ImageContainer) (h : c.indices = none) :
    (refresh c).2 = some .attributeError := by
  simp [refresh, h]

theorem set_image_fresh_fails (guess : List Nat → Bool) (c : ImageContainer)
    (img : NDImage) (meta? : Option Meta) (mc? : Option Bool)
    (h : c.indices = none) :
    (set_image guess c img meta? mc?).2 = some .attributeError := by
  unfold set_image
  apply refresh_indices_none
  cases meta? <;> cases mc? <;> dsimp only <;> split <;> simp [h]

/-- C4: on a container freshly built by the constructor, on which
`set_view_slice` has never run, `refresh()` raises AttributeError
(`self.indices` was never assigned), and therefore so do `set_image`
and the image and meta property setters, all of which call
`refresh()`. -/
theorem C4_fresh_refresh_raises (names : List String) (img img2 : NDImage)
    (m m2 : Meta) (c : ImageContainer) (hc : init names img m = some c)
    (guess : List Nat → Bool) (meta? : Option Meta) (mc? : Option Bool) :
    (refresh c).2 = some .attributeError ∧
    (set_image guess c img2 meta? mc?).2 = some .attributeError ∧
    (image_set c img2).2 = some .attributeError ∧
    (meta_set c m2).2 = some .attributeError := by
  have h := init_indices_none names img m c hc
  refine ⟨refresh_indices_none c h,
          set_image_fresh_fails guess c img2 meta? mc? h, ?_, ?_⟩
  · exact refresh_indices_none _ h
  · exact refresh_indices_none _ h

/-- C4 witness: the container built by `init ["nearest"] ⟨[2, 2]⟩ []`
raises AttributeError from `refresh()` and from `set_image`. -/
theorem C4_witness :
    init ["nearest"] ⟨[2, 2]⟩ [] = some freshC ∧
    (refresh freshC).2 = some .attributeError ∧
    (set_image (fun _ => false) freshC ⟨[2, 2]⟩ none none).2 =
      some .attributeError := by
  have hinit : init ["nearest"] ⟨[2, 2]⟩ [] = some freshC := rfl
  have h := C4_fresh_refresh_raises ["nearest"] ⟨[2, 2]⟩ ⟨[2, 2]⟩ [] []
    freshC hinit (fun _ => false) none none
  exact ⟨hinit, h.1, h.2.1⟩

/-- C6: assigning any integer to `interpolation_index` succeeds and
reading it back returns the integer reduced by mathematical modulus
into [0, number of interpolation names). -/
theorem C6_interpolation_index_mod (names : List String)
    (c : ImageContainer) (i : Int) (h : names ≠ []) :
    (interpolation_index_set names c i).2 = none ∧
    interpolation_index_get (interpolation_index_set names c i).1 =
      i % (names.length : Int) ∧
    0 ≤ i % (names.length : Int) ∧
    i % (names.length : Int) < (names.length : Int) := by
  have hlen : names.length ≠ 0 := fun hh => h (List.length_eq_zero.mp hh)
  have hlz : (names.length : Int) ≠ 0 := by exact_mod_cast hlen
  refine ⟨?_, ?_, Int.emod_nonneg i hlz, Int.emod_lt_of_pos i (by omega)⟩ <;>
    simp [interpolation_index_set, interpolation_index_get, hlen]

/-- C6 witness: with three known names, assigning -4 reads back as
(-4) mod 3 = 2. -/
theorem C6_witness :
    (["a", "b", "c"] : List String) ≠ [] ∧
    interpolation_index_get
      (interpolation_index_set ["a", "b", "c"] sampleC (-4)).1 = 2 := by
  have h := C6_interpolation_index_mod ["a", "b", "c"] sampleC (-4) (by decide)
  exact ⟨by decide, h.2.1.trans (by decide)⟩

/-- C7: when the active transform is an `STTransform`, setting
`z_index` to `k` succeeds and reading `z_index` back returns `k`
(stored as `-k` in the third translation component, read back
negated). -/
theorem C7_z_index_roundtrip (c : ImageContainer) (t : STTransform)
    (k : Rat) (h : c.visual.transform = .st t) :
    (z_index_set c k).2 = none ∧
    z_index_get (z_index_set c k).1 = .ok k := by
  unfold z_index_set
  rw [h]
  exact ⟨rfl, by simp [z_index_get, translate_get, transform_get, Except.map]⟩

/-- C7 witness: on the sample container with the default
`STTransform`, z-index 5 round-trips. -/
theorem C7_witness :
    sampleC.visual.transform = .st STTransform.default ∧
    z_index_get (z_index_set sampleC 5).1 = .ok 5 := by
  have h := C7_z_index_roundtrip sampleC STTransform.default 5 rfl
  exact ⟨rfl, h.2⟩

/-- C8: when the active transform is not an `STTransform`, reading or
writing scale, reading or writing translate, and writing z_index each
raise TypeError and return with the container state unchanged. -/
theorem C8_non_st_transform_raises (c : ImageContainer)
    (v : Rat × Rat × Rat × Rat) (k : Rat)
    (h : c.visual.transform = .other) :
    scale_get c = .error .typeError ∧
    scale_set c v = (c, some .typeError) ∧
    translate_get c = .error .typeError ∧
    translate_set c v = (c, some .typeError) ∧
    z_index_set c k = (c, some .typeError) := by
  unfold scale_get scale_set translate_get translate_set z_index_set
    transform_get
  rw [h]
  exact ⟨rfl, rfl, rfl, rfl, rfl⟩

/-- C8 witness: on the sample container equipped with a
non-`STTransform` transform, scale access and z-index write raise
TypeError with the state unchanged. -/
theorem C8_witness :
    sampleOther.visual.transform = .other ∧
    scale_get sampleOther = .error .typeError ∧
    z_index_set sampleOther 1 = (sampleOther, some .typeError) := by
  have h := C8_non_st_transform_raises sampleOther (0, 0, 0, 0) 1 rfl
  exact ⟨rfl, h.1, h.2.2.2.2⟩

theorem set_view_slice_meta (c : ImageContainer) (idx : Indices) :
    (set_view_slice c idx).1.meta = c.meta := by
  cases idx with
  | ellipsis => rfl
  | list l =>
      simp only [set_view_slice]
      split
      · split <;> rfl
      · rfl

theorem refresh_meta (c : ImageContainer) : (refresh c).1.meta = c.meta := by
  cases hidx : c.indices with
  | none => simp [refresh, hidx]
  | some idx => simp [refresh, hidx, set_view_slice_meta]

theorem metaGet_metaSet (m : Meta) (k v : String) :
    metaGet (metaSet m k v) k = some v := by
  simp [metaGet, metaSet, List.find?]

/-- C9: `set_image` with `multichannel=None` and a shape the heuristic
accepts tags the resulting metadata with `itype = multi`; with explicit
`multichannel=False` the resulting metadata is exactly the base mapping
(the provided one, or with `meta=None` the prior one), so the tag is
never written. -/
theorem C9_set_image_multichannel_tag (guess : List Nat → Bool)
    (c : ImageContainer) (img : NDImage) (meta? : Option Meta)
    (hg : guess img.shape = true) :
    metaGet (set_image guess c img meta? none).1.meta "itype" =
      some "multi" ∧
    (set_image guess c img meta? (some false)).1.meta =
      meta?.getD c.meta := by
  constructor
  · unfold set_image
    cases meta? <;> simp [hg, refresh_meta, metaGet_metaSet]
  · unfold set_image
    cases meta? <;> simp [refresh_meta]

/-- C9 witness: an always-true heuristic with `multichannel=None` tags
the metadata; explicit `multichannel=False` with `meta=None` keeps the
prior (empty) metadata verbatim. -/
theorem C9_witness :
    metaGet (set_image (fun _ => true) sampleC ⟨[4, 4, 3]⟩ none none).1.meta
      "itype" = some "multi" ∧
    (set_image (fun _ => true) sampleC ⟨[4, 4, 3]⟩ none (some false)).1.meta =
      sampleC.meta := by
  have h := C9_set_image_multichannel_tag (fun _ => true) sampleC
    ⟨[4, 4, 3]⟩ none rfl
  exact ⟨h.1, h.2⟩

end ImageContainerModel
